import Mathlib

/-!
Shallow embedding of `src/libnmea_navsat_driver/driver.py` (class
`RosNMEADriver`), the NMEA GNSS driver's stateful sentence-handling core.

Python floats are modelled by `NFloat`: either the not-a-number value or a
rational.  NaN propagates through arithmetic, and every comparison with NaN
is false, matching IEEE semantics for the operations the driver performs
(negation, addition, multiplication, squaring, `math.isnan`, `math.sin`,
`math.cos` — the trigonometric functions are abstracted as parameters
`sinq cosq : ℚ → ℚ` applied pointwise to non-NaN values).

The external collaborators (checksum utility, sentence parser, rospy
publishers) are modelled at their interfaces: an input carries the raw text,
the boolean verdict of `check_nmea_checksum`, and the parser's result as an
optional tagged record; every `publish` call becomes a `Report` appended to
the output list, in program order.
-/

/-- Python float value: not-a-number, or an exact numeric value. -/
inductive NFloat where
  | nan : NFloat
  | val : ℚ → NFloat
deriving DecidableEq

namespace NFloat

/-- `math.isnan`. -/
def isnan : NFloat → Bool
  | nan => true
  | val _ => false

/-- Unary negation; NaN propagates. -/
def neg : NFloat → NFloat
  | nan => nan
  | val q => val (-q)

/-- Addition; NaN propagates. -/
def add : NFloat → NFloat → NFloat
  | nan, _ => nan
  | _, nan => nan
  | val a, val b => val (a + b)

/-- Multiplication; NaN propagates.  (The driver never multiplies 0 by
infinity, so NaN-propagation is the only special case that matters.) -/
def mul : NFloat → NFloat → NFloat
  | nan, _ => nan
  | _, nan => nan
  | val a, val b => val (a * b)

/-- `x ** 2`. -/
def sq (x : NFloat) : NFloat := x.mul x

/-- Apply a real function (e.g. sine) pointwise; NaN propagates, matching
`math.sin(float("nan")) = nan`. -/
def app (f : ℚ → ℚ) : NFloat → NFloat
  | nan => nan
  | val q => val (f q)

/-- `x < 0`: comparisons against NaN are false. -/
def isNeg : NFloat → Bool
  | nan => false
  | val q => decide (q < 0)

end NFloat

/-- `sensor_msgs/NavSatStatus.STATUS_NO_FIX`. -/
def STATUS_NO_FIX : Int := -1
/-- `sensor_msgs/NavSatStatus.STATUS_FIX`. -/
def STATUS_FIX : Int := 0
/-- `sensor_msgs/NavSatStatus.STATUS_SBAS_FIX`. -/
def STATUS_SBAS_FIX : Int := 1
/-- `sensor_msgs/NavSatStatus.STATUS_GBAS_FIX`. -/
def STATUS_GBAS_FIX : Int := 2
/-- `sensor_msgs/NavSatStatus.SERVICE_GPS`. -/
def SERVICE_GPS : Int := 1
/-- `sensor_msgs/NavSatFix.COVARIANCE_TYPE_UNKNOWN`. -/
def COVARIANCE_TYPE_UNKNOWN : Int := 0
/-- `sensor_msgs/NavSatFix.COVARIANCE_TYPE_APPROXIMATED`. -/
def COVARIANCE_TYPE_APPROXIMATED : Int := 1

/-- Message timestamp: either the arrival time supplied by the caller /
`rospy.get_rostime()` (not further modelled), or a GNSS receiver time
`rospy.Time(secs, nsecs)` built from the sentence's `utc_time` pair. -/
inductive Stamp where
  | arrival : Stamp
  | gnss : NFloat → NFloat → Stamp
deriving DecidableEq

/-- Row-major 3x3 position covariance (`NavSatFix.position_covariance`),
all nine entries; a fresh `NavSatFix()` has them all zero. -/
structure Cov where
  c0 : NFloat
  c1 : NFloat
  c2 : NFloat
  c3 : NFloat
  c4 : NFloat
  c5 : NFloat
  c6 : NFloat
  c7 : NFloat
  c8 : NFloat
deriving DecidableEq

/-- The all-zero covariance of a fresh `NavSatFix()`. -/
def Cov.zero : Cov :=
  ⟨.val 0, .val 0, .val 0, .val 0, .val 0, .val 0, .val 0, .val 0, .val 0⟩

/-- The fields of a published `sensor_msgs/NavSatFix` that the driver sets. -/
structure NavFix where
  stamp : Stamp
  frame_id : String
  status : Int
  service : Int
  latitude : NFloat
  longitude : NFloat
  altitude : NFloat
  position_covariance : Cov
  position_covariance_type : Int
deriving DecidableEq

/-- The fields of a published `sensor_msgs/TimeReference`. -/
structure TimeRefMsg where
  frame_id : String
  source : String
  time_secs : NFloat
  time_nsecs : NFloat
deriving DecidableEq

/-- The fields of a published `geometry_msgs/TwistStamped` that the driver
sets (`twist.linear.x`, `twist.linear.y`). -/
structure VelocityMsg where
  frame_id : String
  vx : NFloat
  vy : NFloat
deriving DecidableEq

/-- The auxiliary sentence kinds the driver translates 1:1 into dedicated
messages (`Hdt`, `Actuators`, `Gsa`, ...).  Their field payloads are copied
verbatim from the parsed data and play no role in the fusion state, so only
the kind (and, for RSA, the truthiness of `data['rudder_angle']`, which
gates its publish) is tracked. -/
inductive AuxData where
  | hdt : AuxData
  | rsa : Bool → AuxData
  | gsa : AuxData
  | zda : AuxData
  | rpm : AuxData
  | hdg : AuxData
  | rotSentence : AuxData
  | gsv : AuxData
  | vtg : AuxData
  | vbw : AuxData
  | gll : AuxData
  | vdm : AuxData
  | vdo : AuxData
deriving DecidableEq

/-- One `publish` call on some publisher of the driver, in program order. -/
inductive Report where
  | rawEcho : String → Report
  | navFix : NavFix → Report
  | timeRef : TimeRefMsg → Report
  | velocity : VelocityMsg → Report
  | auxReport : AuxData → Report
deriving DecidableEq

/-- Parsed `GGA` data: the fields of `parsed_sentence['GGA']` the driver
reads.  `utc_time` is the `(secs, nsecs)` pair. -/
structure GgaData where
  utc_secs : NFloat
  utc_nsecs : NFloat
  fix_type : Int
  latitude : NFloat
  latitude_direction : String
  longitude : NFloat
  longitude_direction : String
  altitude : NFloat
  mean_sea_level : NFloat
  hdop : NFloat
deriving DecidableEq

/-- Parsed `RMC` data: the fields of `parsed_sentence['RMC']` the driver
reads. -/
structure RmcData where
  utc_secs : NFloat
  utc_nsecs : NFloat
  fix_valid : Bool
  latitude : NFloat
  latitude_direction : String
  longitude : NFloat
  longitude_direction : String
  speed : NFloat
  true_course : NFloat
deriving DecidableEq

/-- Parsed `GST` data: receiver error estimates. -/
structure GstData where
  lon_std_dev : NFloat
  lat_std_dev : NFloat
  alt_std_dev : NFloat
deriving DecidableEq

/-- The parser's output `parsed_sentence`, a singleton map from a sentence
type tag to its data; `other` stands for a successfully parsed tag that
none of the driver's dispatch branches tests for. -/
inductive ParsedSentence where
  | gga : GgaData → ParsedSentence
  | rmc : RmcData → ParsedSentence
  | gst : GstData → ParsedSentence
  | auxSentence : AuxData → ParsedSentence
  | other : ParsedSentence
deriving DecidableEq

/-- One raw input to `add_sentence`: the raw text (used only by the echo
block), the verdict of the external `check_nmea_checksum`, and the result
of the external `parse_nmea_sentence` (`none` = falsy parse failure). -/
structure RawSentence where
  text : String
  checksum_ok : Bool
  parsed : Option ParsedSentence
deriving DecidableEq

/-- Configuration read once in `RosNMEADriver.__init__` from rosparams. -/
structure DriverConfig where
  use_GNSS_time : Bool
  use_RMC : Bool
  time_ref_source : Option String
  default_epe_quality0 : ℚ
  default_epe_quality1 : ℚ
  default_epe_quality2 : ℚ
  default_epe_quality4 : ℚ
  default_epe_quality5 : ℚ
  default_epe_quality9 : ℚ

/-- The rosparam defaults from `__init__`. -/
def defaultConfig : DriverConfig :=
  { use_GNSS_time := false
    use_RMC := false
    time_ref_source := none
    default_epe_quality0 := 1000000
    default_epe_quality1 := 4
    default_epe_quality2 := 1/10
    default_epe_quality4 := 1/50
    default_epe_quality5 := 4
    default_epe_quality9 := 3 }

/-- The mutable per-stream state of the fusion engine (`FusionState` in the
spec): `self.valid_fix`, `self.using_receiver_epe` and the three standard
deviations. -/
structure FusionState where
  valid_fix : Bool
  using_receiver_epe : Bool
  lon_std_dev : NFloat
  lat_std_dev : NFloat
  alt_std_dev : NFloat
deriving DecidableEq

/-- State after `__init__`: `valid_fix = False`, `using_receiver_epe =
False`, all standard deviations `float("nan")`. -/
def initState : FusionState :=
  { valid_fix := false
    using_receiver_epe := false
    lon_std_dev := .nan
    lat_std_dev := .nan
    alt_std_dev := .nan }

/-- `self.gps_qualities`: fix type → (default epe, NavSatStatus value,
covariance type); `none` when the fix type is not a key of the dict. -/
def gps_qualities (cfg : DriverConfig) (ft : Int) : Option (ℚ × Int × Int) :=
  if ft = -1 then some (cfg.default_epe_quality0, STATUS_NO_FIX, COVARIANCE_TYPE_UNKNOWN)
  else if ft = 0 then some (cfg.default_epe_quality0, STATUS_NO_FIX, COVARIANCE_TYPE_UNKNOWN)
  else if ft = 1 then some (cfg.default_epe_quality1, STATUS_FIX, COVARIANCE_TYPE_APPROXIMATED)
  else if ft = 2 then some (cfg.default_epe_quality2, STATUS_SBAS_FIX, COVARIANCE_TYPE_APPROXIMATED)
  else if ft = 4 then some (cfg.default_epe_quality4, STATUS_GBAS_FIX, COVARIANCE_TYPE_APPROXIMATED)
  else if ft = 5 then some (cfg.default_epe_quality5, STATUS_GBAS_FIX, COVARIANCE_TYPE_APPROXIMATED)
  else if ft = 9 then some (cfg.default_epe_quality9, STATUS_GBAS_FIX, COVARIANCE_TYPE_APPROXIMATED)
  else none

/-- `current_time_ref.source`: `self.time_ref_source` if truthy (Python:
non-`None` and non-empty), else the frame id. -/
def timeRefSource (cfg : DriverConfig) (frame_id : String) : String :=
  match cfg.time_ref_source with
  | some s => if s = "" then frame_id else s
  | none => frame_id

/-- `nmea_string.split("\\")` on the character list, matching Python
`str.split` with an explicit separator (adjacent separators and string ends
yield empty pieces). -/
def splitOnBackslash : List Char → List (List Char)
  | [] => [[]]
  | c :: rest =>
    let r := splitOnBackslash rest
    if c = '\\' then [] :: r
    else
      match r with
      | [] => [[c]]
      | s :: ss => (c :: s) :: ss

/-- The prefix blacklist of the echo block: `$MXPGN`, `$PSMDSTAT`,
`$AGRSA`, `$ERRPM` (Python slice comparison; slices of shorter strings are
the whole string, exactly as `List.take`). -/
def blacklisted (s : List Char) : Bool :=
  decide (s.take 6 = "$MXPGN".data) || decide (s.take 9 = "$PSMDSTAT".data) ||
    decide (s.take 6 = "$AGRSA".data) || decide (s.take 6 = "$ERRPM".data)

/-- The echo block at the top of `add_sentence` (before checksum
validation): split the raw text on backslashes and republish every piece
that starts with `$` or `!` and is not blacklisted on `nmea_sentences`.
An empty piece raises `IndexError` at `sentence[0]`, swallowed by the bare
`except`. -/
def echoOne (s : List Char) : Option Report :=
  match s with
  | [] => none
  | c :: _ =>
    if (c = '$' || c = '!') && !blacklisted s then
      some (.rawEcho (String.mk s))
    else none

/-- All the republications of one `add_sentence` call, in order. -/
def echoReports (text : String) : List Report :=
  (splitOnBackslash text.data).filterMap echoOne

/-- Result of one `add_sentence` call: the new fusion state, the publishes
in program order, and the Python return value (`some false` = `return
False`, `none` = falling off the end, returning `None`; `some true` never
occurs). -/
structure StepResult where
  state : FusionState
  reports : List Report
  ret : Option Bool
deriving DecidableEq

/-- `current_fix.header.stamp` after the optional GNSS-time override:
the arrival time, or `rospy.Time(*utc_time)` in GNSS-time mode. -/
def sentenceStamp (cfg : DriverConfig) (utc_secs utc_nsecs : NFloat) : Stamp :=
  if cfg.use_GNSS_time then .gnss utc_secs utc_nsecs else .arrival

/-- The local `fix_type` after the fallback
`if not (fix_type in self.gps_qualities): fix_type = -1`. -/
def ggaFixType (cfg : DriverConfig) (d : GgaData) : Int :=
  if (gps_qualities cfg d.fix_type).isSome then d.fix_type else -1

/-- `gps_qual = self.gps_qualities[fix_type]` (total: the fallback key `-1`
is always present, so `getD` never takes its default). -/
def ggaQual (cfg : DriverConfig) (d : GgaData) : ℚ × Int × Int :=
  (gps_qualities cfg (ggaFixType cfg d)).getD
    (cfg.default_epe_quality0, STATUS_NO_FIX, COVARIANCE_TYPE_UNKNOWN)

/-- `self.lon_std_dev` after the default-epe fallback of the GGA branch. -/
def ggaLonStd (cfg : DriverConfig) (st : FusionState) (d : GgaData) : NFloat :=
  if !st.using_receiver_epe || st.lon_std_dev.isnan then
    .val (ggaQual cfg d).1
  else st.lon_std_dev

/-- `self.lat_std_dev` after the default-epe fallback of the GGA branch. -/
def ggaLatStd (cfg : DriverConfig) (st : FusionState) (d : GgaData) : NFloat :=
  if !st.using_receiver_epe || st.lat_std_dev.isnan then
    .val (ggaQual cfg d).1
  else st.lat_std_dev

/-- `self.alt_std_dev` after the default-epe fallback of the GGA branch
(twice the default). -/
def ggaAltStd (cfg : DriverConfig) (st : FusionState) (d : GgaData) : NFloat :=
  if !st.using_receiver_epe || st.alt_std_dev.isnan then
    .val ((ggaQual cfg d).1 * 2)
  else st.alt_std_dev

/-- The hemisphere sign adjustment: negate the magnitude exactly when the
direction letter equals the southern/western letter. -/
def signAdjust (magnitude : NFloat) (direction letter : String) : NFloat :=
  if direction = letter then magnitude.neg else magnitude

/-- The `NavSatFix` assembled and published by the GGA branch. -/
def ggaFix (cfg : DriverConfig) (st : FusionState) (d : GgaData)
    (frame_id : String) : NavFix :=
  { stamp := sentenceStamp cfg d.utc_secs d.utc_nsecs
    frame_id := frame_id
    status := (ggaQual cfg d).2.1
    service := SERVICE_GPS
    latitude := signAdjust d.latitude d.latitude_direction "S"
    longitude := signAdjust d.longitude d.longitude_direction "W"
    altitude := d.altitude.add d.mean_sea_level
    position_covariance :=
      { Cov.zero with
        c0 := (d.hdop.mul (ggaLonStd cfg st d)).sq
        c4 := (d.hdop.mul (ggaLatStd cfg st d)).sq
        c8 := (((NFloat.val 2).mul d.hdop).mul (ggaAltStd cfg st d)).sq }
    position_covariance_type := (ggaQual cfg d).2.2 }

/-- The fusion state after the GGA branch's mutations. -/
def ggaState (cfg : DriverConfig) (st : FusionState) (d : GgaData) :
    FusionState :=
  { st with
    valid_fix := decide (ggaFixType cfg d > 0)
    lon_std_dev := ggaLonStd cfg st d
    lat_std_dev := ggaLatStd cfg st d
    alt_std_dev := ggaAltStd cfg st d }

/-- The `TimeReference` publish guarded by
`not (math.isnan(data['utc_time'][0]) or self.use_GNSS_time)`. -/
def utcTimeRefs (cfg : DriverConfig) (utc_secs utc_nsecs : NFloat)
    (frame_id : String) : List Report :=
  if !(utc_secs.isnan || cfg.use_GNSS_time) then
    [.timeRef
      { frame_id := frame_id
        source := timeRefSource cfg frame_id
        time_secs := utc_secs
        time_nsecs := utc_nsecs }]
  else []

/-- The GGA branch of `add_sentence` (lines 240–299), entered when
`not self.use_RMC and 'GGA' in parsed_sentence`. -/
def handleGGA (cfg : DriverConfig) (st : FusionState) (d : GgaData)
    (frame_id : String) : FusionState × List Report × Option Bool :=
  if cfg.use_GNSS_time && d.utc_secs.isnan then (st, [], some false)
  else
    (ggaState cfg st d,
      .navFix (ggaFix cfg st d frame_id) ::
        utcTimeRefs cfg d.utc_secs d.utc_nsecs frame_id,
      none)

/-- The `NavSatFix` assembled and published by the RMC branch when
`use_RMC` is set: altitude forced to NaN, covariance type unknown. -/
def rmcFix (cfg : DriverConfig) (d : RmcData) (frame_id : String) : NavFix :=
  { stamp := sentenceStamp cfg d.utc_secs d.utc_nsecs
    frame_id := frame_id
    status := if d.fix_valid then STATUS_FIX else STATUS_NO_FIX
    service := SERVICE_GPS
    latitude := signAdjust d.latitude d.latitude_direction "S"
    longitude := signAdjust d.longitude d.longitude_direction "W"
    altitude := .nan
    position_covariance := Cov.zero
    position_covariance_type := COVARIANCE_TYPE_UNKNOWN }

/-- The `TwistStamped` velocity published by the RMC branch:
`speed * sin(true_course)` east, `speed * cos(true_course)` north. -/
def rmcVel (sinq cosq : ℚ → ℚ) (d : RmcData) (frame_id : String) :
    VelocityMsg :=
  { frame_id := frame_id
    vx := d.speed.mul (d.true_course.app sinq)
    vy := d.speed.mul (d.true_course.app cosq) }

/-- The RMC branch of `add_sentence` (lines 302–351). -/
def handleRMC (cfg : DriverConfig) (sinq cosq : ℚ → ℚ) (st : FusionState)
    (d : RmcData) (frame_id : String) :
    FusionState × List Report × Option Bool :=
  if cfg.use_GNSS_time && d.utc_secs.isnan then (st, [], some false)
  else
    let fixReports : List Report :=
      if cfg.use_RMC then
        .navFix (rmcFix cfg d frame_id) ::
          utcTimeRefs cfg d.utc_secs d.utc_nsecs frame_id
      else []
    let velReports : List Report :=
      if d.fix_valid then [.velocity (rmcVel sinq cosq d frame_id)] else []
    (st, fixReports ++ velReports, none)

/-- The GST branch (lines 352–359): record the receiver error estimates. -/
def handleGST (st : FusionState) (d : GstData) : FusionState :=
  { st with
    using_receiver_epe := true
    lon_std_dev := d.lon_std_dev
    lat_std_dev := d.lat_std_dev
    alt_std_dev := d.alt_std_dev }

/-- The auxiliary branches (HDT, RSA, GSA, ...): a 1:1 field-copy message,
published unconditionally except RSA, which publishes only
`if data['rudder_angle']:` (truthiness). -/
def handleAux (k : AuxData) : List Report :=
  match k with
  | .rsa t => if t then [.auxReport (.rsa t)] else []
  | k => [.auxReport k]

/-- The dispatch chain of `add_sentence` after checksum and parse: the
`if not self.use_RMC and 'GGA' ... elif 'RMC' ... elif 'GST' ... else:
return False` ladder. -/
def dispatch (cfg : DriverConfig) (sinq cosq : ℚ → ℚ) (st : FusionState)
    (p : ParsedSentence) (frame_id : String) :
    FusionState × List Report × Option Bool :=
  match p with
  | .gga d =>
    if !cfg.use_RMC then handleGGA cfg st d frame_id
    else (st, [], some false)
  | .rmc d => handleRMC cfg sinq cosq st d frame_id
  | .gst d => (handleGST st d, [], none)
  | .auxSentence k => (st, handleAux k, none)
  | .other => (st, [], some false)

/-- `RosNMEADriver.add_sentence`: echo the raw pieces, gate on checksum,
gate on parse, then dispatch. -/
def add_sentence (cfg : DriverConfig) (sinq cosq : ℚ → ℚ) (st : FusionState)
    (inp : RawSentence) (frame_id : String) : StepResult :=
  let echo := echoReports inp.text
  if !inp.checksum_ok then ⟨st, echo, some false⟩
  else
    match inp.parsed with
    | none => ⟨st, echo, some false⟩
    | some p =>
      let r := dispatch cfg sinq cosq st p frame_id
      ⟨r.1, echo ++ r.2.1, r.2.2⟩

/-- Feed a sequence of raw sentences, threading the fusion state. -/
def runDriver (cfg : DriverConfig) (sinq cosq : ℚ → ℚ) (st : FusionState)
    (frame_id : String) : List RawSentence → FusionState
  | [] => st
  | i :: is =>
    runDriver cfg sinq cosq (add_sentence cfg sinq cosq st i frame_id).state
      frame_id is

/-- The constant-zero rational function, used to instantiate the abstract
trigonometric parameters on concrete runs. -/
def qzero : ℚ → ℚ := fun _ => 0

/-!  ## Theorems -/

/-- The exact condition under which `add_sentence` executes a `return
False` statement: checksum failure, parse failure, GNSS-time mode with a
NaN time field on a GGA/RMC sentence, or falling through the dispatch
ladder to the final `else` (a tag no branch tests for, or a GGA sentence
while `use_RMC` is set). -/
def returnsFalse (cfg : DriverConfig) (inp : RawSentence) : Bool :=
  !inp.checksum_ok ||
    match inp.parsed with
    | none => true
    | some (.gga d) => cfg.use_RMC || (cfg.use_GNSS_time && d.utc_secs.isnan)
    | some (.rmc d) => cfg.use_GNSS_time && d.utc_secs.isnan
    | some (.gst _) => false
    | some (.auxSentence _) => false
    | some .other => true

/-- C10: `add_sentence` never returns `True`: every call returns `None`
(successful handling) or `False`, and it returns `False` exactly on
checksum failure, parse failure, an unusable GNSS time, or a sentence the
dispatch ladder does not handle — so truthiness cannot distinguish success
from failure. -/
theorem add_sentence_never_true (cfg : DriverConfig) (sinq cosq : ℚ → ℚ)
    (st : FusionState) (inp : RawSentence) (frame_id : String) :
    ((add_sentence cfg sinq cosq st inp frame_id).ret = none ∨
      (add_sentence cfg sinq cosq st inp frame_id).ret = some false) ∧
    ((add_sentence cfg sinq cosq st inp frame_id).ret = some false ↔
      returnsFalse cfg inp = true) := by
  rcases inp with ⟨text, ck, parsed⟩
  cases ck with
  | false => simp [add_sentence, returnsFalse]
  | true =>
    cases parsed with
    | none => simp [add_sentence, returnsFalse]
    | some p =>
      cases p with
      | gga d =>
        cases hr : cfg.use_RMC with
        | true => simp [add_sentence, returnsFalse, dispatch, hr]
        | false =>
          cases hg : (cfg.use_GNSS_time && d.utc_secs.isnan) with
          | true => simp [add_sentence, returnsFalse, dispatch, handleGGA, hr, hg]
          | false => simp [add_sentence, returnsFalse, dispatch, handleGGA, hr, hg]
      | rmc d =>
        cases hg : (cfg.use_GNSS_time && d.utc_secs.isnan) with
        | true => simp [add_sentence, returnsFalse, dispatch, handleRMC, hg]
        | false => simp [add_sentence, returnsFalse, dispatch, handleRMC, hg]
      | gst d => simp [add_sentence, returnsFalse, dispatch]
      | auxSentence k => simp [add_sentence, returnsFalse, dispatch]
      | other => simp [add_sentence, returnsFalse, dispatch]

/-- C4 counterexample: a sentence with an invalid checksum that begins
with `$` is still republished on the `nmea_sentences` channel (the echo
block runs before checksum validation), so the call does not emit zero
reports — though the fusion state is unchanged and `False` is returned. -/
theorem checksum_fail_still_echoes :
    (add_sentence defaultConfig qzero qzero initState
        ⟨"$GPGGA,1*00", false, none⟩ "gps").reports =
      [.rawEcho "$GPGGA,1*00"] ∧
    (add_sentence defaultConfig qzero qzero initState
        ⟨"$GPGGA,1*00", false, none⟩ "gps").reports ≠ [] ∧
    (add_sentence defaultConfig qzero qzero initState
        ⟨"$GPGGA,1*00", false, none⟩ "gps").state = initState ∧
    (add_sentence defaultConfig qzero qzero initState
        ⟨"$GPGGA,1*00", false, none⟩ "gps").ret = some false := by
  refine ⟨by decide, by decide, by decide, by decide⟩

/-- C4 amended: on a checksum failure `add_sentence` leaves the fusion
state unchanged, returns `False`, and emits nothing besides the raw-echo
republication of the sentence text (which happens before validation). -/
theorem checksum_fail_drops_sentence (cfg : DriverConfig)
    (sinq cosq : ℚ → ℚ) (st : FusionState) (inp : RawSentence)
    (frame_id : String) (h : inp.checksum_ok = false) :
    (add_sentence cfg sinq cosq st inp frame_id).state = st ∧
    (add_sentence cfg sinq cosq st inp frame_id).ret = some false ∧
    (add_sentence cfg sinq cosq st inp frame_id).reports =
      echoReports inp.text := by
  simp [add_sentence, h]

/-- C4 witness: the amended statement at a concrete bad-checksum input. -/
theorem checksum_fail_drops_sentence_witness :
    (add_sentence defaultConfig qzero qzero initState
        ⟨"$GPGGA,1*00", false, none⟩ "gps").state = initState ∧
    (add_sentence defaultConfig qzero qzero initState
        ⟨"$GPGGA,1*00", false, none⟩ "gps").ret = some false ∧
    (add_sentence defaultConfig qzero qzero initState
        ⟨"$GPGGA,1*00", false, none⟩ "gps").reports =
      echoReports "$GPGGA,1*00" :=
  checksum_fail_drops_sentence defaultConfig qzero qzero initState
    ⟨"$GPGGA,1*00", false, none⟩ "gps" rfl

/-- Configuration with GNSS-time mode enabled, other defaults unchanged. -/
def cfgGNSS : DriverConfig := { defaultConfig with use_GNSS_time := true }

/-- A GGA record whose time field is NaN (all other fields arbitrary). -/
def ggaNanTime : GgaData :=
  { utc_secs := .nan, utc_nsecs := .val 0, fix_type := 1,
    latitude := .val 48, latitude_direction := "N",
    longitude := .val 11, longitude_direction := "E",
    altitude := .val 545, mean_sea_level := .val 47, hdop := .val 1 }

/-- C5 counterexample: in GNSS-time mode, a GGA sentence with NaN time is
rejected (`False`, state untouched) but the call still emits one report —
the raw-echo republication, which runs before the time check — so "emits
no report" fails as stated. -/
theorem gnss_nan_time_cex :
    (add_sentence cfgGNSS qzero qzero initState
        ⟨"$GPGGA,,4807.038,N*00", true, some (.gga ggaNanTime)⟩ "gps").ret =
      some false ∧
    (add_sentence cfgGNSS qzero qzero initState
        ⟨"$GPGGA,,4807.038,N*00", true, some (.gga ggaNanTime)⟩ "gps").state =
      initState ∧
    (add_sentence cfgGNSS qzero qzero initState
        ⟨"$GPGGA,,4807.038,N*00", true, some (.gga ggaNanTime)⟩ "gps").reports =
      [.rawEcho "$GPGGA,,4807.038,N*00"] ∧
    (add_sentence cfgGNSS qzero qzero initState
        ⟨"$GPGGA,,4807.038,N*00", true, some (.gga ggaNanTime)⟩ "gps").reports ≠
      [] := by
  refine ⟨by decide, by decide, by decide, by decide⟩

/-- C5 amended: in GNSS-time mode a GGA or RMC sentence with NaN time makes
`add_sentence` return `False`, leave the fusion state unmutated, and emit
nothing besides the pre-validation raw echo of the sentence text. -/
theorem gnss_nan_time_drops (cfg : DriverConfig) (sinq cosq : ℚ → ℚ)
    (st : FusionState) (inp : RawSentence) (frame_id : String)
    (h1 : cfg.use_GNSS_time = true) (h2 : inp.checksum_ok = true)
    (h3 : (∃ d, inp.parsed = some (.gga d) ∧ d.utc_secs = .nan) ∨
      (∃ d, inp.parsed = some (.rmc d) ∧ d.utc_secs = .nan)) :
    (add_sentence cfg sinq cosq st inp frame_id).ret = some false ∧
    (add_sentence cfg sinq cosq st inp frame_id).state = st ∧
    (add_sentence cfg sinq cosq st inp frame_id).reports =
      echoReports inp.text := by
  rcases h3 with ⟨d, hp, hn⟩ | ⟨d, hp, hn⟩
  · cases hr : cfg.use_RMC with
    | true => simp [add_sentence, dispatch, h1, h2, hp, hr]
    | false =>
      simp [add_sentence, dispatch, handleGGA, h1, h2, hp, hr, hn, NFloat.isnan]
  · simp [add_sentence, dispatch, handleRMC, h1, h2, hp, hn, NFloat.isnan]

/-- C5 witness: the amended statement at a concrete GNSS-time NaN input. -/
theorem gnss_nan_time_drops_witness :
    (add_sentence cfgGNSS qzero qzero initState
        ⟨"$GPGGA,,*00", true, some (.gga ggaNanTime)⟩ "gps").ret = some false ∧
    (add_sentence cfgGNSS qzero qzero initState
        ⟨"$GPGGA,,*00", true, some (.gga ggaNanTime)⟩ "gps").state = initState ∧
    (add_sentence cfgGNSS qzero qzero initState
        ⟨"$GPGGA,,*00", true, some (.gga ggaNanTime)⟩ "gps").reports =
      echoReports "$GPGGA,,*00" :=
  gnss_nan_time_drops cfgGNSS qzero qzero initState
    ⟨"$GPGGA,,*00", true, some (.gga ggaNanTime)⟩ "gps" rfl rfl
    (Or.inl ⟨ggaNanTime, rfl, rfl⟩)

/-- C6: handling a GST sentence sets `using_receiver_epe` and overwrites
all three standard deviations from the sentence, emits nothing beyond the
raw echo, and doing it twice in succession leaves the fusion state exactly
as after doing it once. -/
theorem gst_idempotent (cfg : DriverConfig) (sinq cosq : ℚ → ℚ)
    (st : FusionState) (inp : RawSentence) (d : GstData) (frame_id : String)
    (h1 : inp.checksum_ok = true) (h2 : inp.parsed = some (.gst d)) :
    (add_sentence cfg sinq cosq
        (add_sentence cfg sinq cosq st inp frame_id).state inp
        frame_id).state =
      (add_sentence cfg sinq cosq st inp frame_id).state ∧
    (add_sentence cfg sinq cosq st inp frame_id).state.using_receiver_epe =
      true ∧
    (add_sentence cfg sinq cosq st inp frame_id).state.lon_std_dev =
      d.lon_std_dev ∧
    (add_sentence cfg sinq cosq st inp frame_id).state.lat_std_dev =
      d.lat_std_dev ∧
    (add_sentence cfg sinq cosq st inp frame_id).state.alt_std_dev =
      d.alt_std_dev ∧
    (add_sentence cfg sinq cosq st inp frame_id).reports =
      echoReports inp.text := by
  simp [add_sentence, dispatch, handleGST, h1, h2]

/-- C6 witness: the GST idempotence statement at a concrete input. -/
theorem gst_idempotent_witness :
    (add_sentence defaultConfig qzero qzero
        (add_sentence defaultConfig qzero qzero initState
            ⟨"$GPGST,x*00", true,
              some (.gst ⟨.val 1, .val 2, .val 3⟩)⟩ "gps").state
        ⟨"$GPGST,x*00", true, some (.gst ⟨.val 1, .val 2, .val 3⟩)⟩
        "gps").state =
      (add_sentence defaultConfig qzero qzero initState
          ⟨"$GPGST,x*00", true, some (.gst ⟨.val 1, .val 2, .val 3⟩)⟩
          "gps").state ∧
    (add_sentence defaultConfig qzero qzero initState
        ⟨"$GPGST,x*00", true, some (.gst ⟨.val 1, .val 2, .val 3⟩)⟩
        "gps").state.using_receiver_epe = true ∧
    (add_sentence defaultConfig qzero qzero initState
        ⟨"$GPGST,x*00", true, some (.gst ⟨.val 1, .val 2, .val 3⟩)⟩
        "gps").state.lon_std_dev = .val 1 ∧
    (add_sentence defaultConfig qzero qzero initState
        ⟨"$GPGST,x*00", true, some (.gst ⟨.val 1, .val 2, .val 3⟩)⟩
        "gps").state.lat_std_dev = .val 2 ∧
    (add_sentence defaultConfig qzero qzero initState
        ⟨"$GPGST,x*00", true, some (.gst ⟨.val 1, .val 2, .val 3⟩)⟩
        "gps").state.alt_std_dev = .val 3 ∧
    (add_sentence defaultConfig qzero qzero initState
        ⟨"$GPGST,x*00", true, some (.gst ⟨.val 1, .val 2, .val 3⟩)⟩
        "gps").reports = echoReports "$GPGST,x*00" :=
  gst_idempotent defaultConfig qzero qzero initState
    ⟨"$GPGST,x*00", true, some (.gst ⟨.val 1, .val 2, .val 3⟩)⟩
    ⟨.val 1, .val 2, .val 3⟩ "gps" rfl rfl

/-- A fix-quality code outside the table's key set has no entry. -/
lemma gps_qualities_none (cfg : DriverConfig) (ft : Int)
    (h : ft ∉ ([-1, 0, 1, 2, 4, 5, 9] : List Int)) :
    gps_qualities cfg ft = none := by
  have h' : ft ≠ -1 ∧ ft ≠ 0 ∧ ft ≠ 1 ∧ ft ≠ 2 ∧ ft ≠ 4 ∧ ft ≠ 5 ∧ ft ≠ 9 := by
    simpa using h
  obtain ⟨h1, h2, h3, h4, h5, h6, h7⟩ := h'
  simp [gps_qualities, h1, h2, h3, h4, h5, h6, h7]

/-- The table entry for the fallback code `-1`. -/
lemma gps_qualities_neg_one (cfg : DriverConfig) :
    gps_qualities cfg (-1) =
      some (cfg.default_epe_quality0, STATUS_NO_FIX, COVARIANCE_TYPE_UNKNOWN) := by
  simp [gps_qualities]

/-- A fix type with no table entry falls back to `-1`. -/
lemma ggaFixType_unknown (cfg : DriverConfig) (d : GgaData)
    (h : gps_qualities cfg d.fix_type = none) :
    ggaFixType cfg d = -1 := by
  simp [ggaFixType, h]

/-- The fallback key is a fixed point of the fallback. -/
lemma ggaFixType_minus_one (cfg : DriverConfig) (d : GgaData) :
    ggaFixType cfg { d with fix_type := -1 } = -1 := by
  simp [ggaFixType, gps_qualities_neg_one]

/-- Quality lookup for an unknown code agrees with the lookup at `-1`. -/
lemma ggaQual_congr (cfg : DriverConfig) (d : GgaData)
    (h : gps_qualities cfg d.fix_type = none) :
    ggaQual cfg d = ggaQual cfg { d with fix_type := -1 } := by
  simp [ggaQual, ggaFixType_unknown cfg d h, ggaFixType_minus_one]

/-- The GGA branch treats a fix type with no table entry exactly like
fix type `-1`. -/
lemma handleGGA_unknown_fix_type (cfg : DriverConfig) (st : FusionState)
    (d : GgaData) (frame_id : String)
    (h : gps_qualities cfg d.fix_type = none) :
    handleGGA cfg st d frame_id =
      handleGGA cfg st { d with fix_type := -1 } frame_id := by
  have hq := ggaQual_congr cfg d h
  have hft :=
    (ggaFixType_unknown cfg d h).trans (ggaFixType_minus_one cfg d).symm
  simp [handleGGA, ggaState, ggaFix, ggaLonStd, ggaLatStd, ggaAltStd,
    sentenceStamp, signAdjust, utcTimeRefs, hq, hft]

/-- C7: a GGA sentence whose fix-quality code is not a key of
`gps_qualities` is handled identically (same state, same reports, same
return) to the same sentence with code `-1`, and when the GGA branch runs
it records `valid_fix = false`. -/
theorem unknown_fix_quality_as_minus_one (cfg : DriverConfig)
    (sinq cosq : ℚ → ℚ) (st : FusionState) (inp : RawSentence) (d : GgaData)
    (frame_id : String) (h2 : inp.parsed = some (.gga d))
    (h : d.fix_type ∉ ([-1, 0, 1, 2, 4, 5, 9] : List Int)) :
    add_sentence cfg sinq cosq st inp frame_id =
      add_sentence cfg sinq cosq st
        ⟨inp.text, inp.checksum_ok, some (.gga { d with fix_type := -1 })⟩
        frame_id ∧
    (cfg.use_RMC = false → inp.checksum_ok = true →
      (cfg.use_GNSS_time && d.utc_secs.isnan) = false →
      (add_sentence cfg sinq cosq st inp frame_id).state.valid_fix = false) := by
  have hnone := gps_qualities_none cfg d.fix_type h
  constructor
  · cases hc : inp.checksum_ok with
    | false => simp [add_sentence, hc]
    | true =>
      cases hr : cfg.use_RMC with
      | true => simp [add_sentence, dispatch, h2, hc, hr]
      | false =>
        simp [add_sentence, dispatch, h2, hc, hr,
          handleGGA_unknown_fix_type cfg st d frame_id hnone]
  · intro hr hc hg
    simp [add_sentence, dispatch, handleGGA, ggaState, h2, hc, hr, hg,
      ggaFixType_unknown cfg d hnone]

/-- C7 witness: the unknown-code statement at the concrete code 7. -/
theorem unknown_fix_quality_witness :
    add_sentence defaultConfig qzero qzero initState
        ⟨"$GPGGA,7*00", true, some (.gga { ggaNanTime with
          utc_secs := .val 0, fix_type := 7 })⟩ "gps" =
      add_sentence defaultConfig qzero qzero initState
        ⟨"$GPGGA,7*00", true, some (.gga { { ggaNanTime with
          utc_secs := .val 0, fix_type := 7 } with fix_type := -1 })⟩ "gps" ∧
    (defaultConfig.use_RMC = false → true = true →
      (defaultConfig.use_GNSS_time &&
        ({ ggaNanTime with utc_secs := .val 0, fix_type := 7 } :
          GgaData).utc_secs.isnan) = false →
      (add_sentence defaultConfig qzero qzero initState
          ⟨"$GPGGA,7*00", true, some (.gga { ggaNanTime with
            utc_secs := .val 0, fix_type := 7 })⟩ "gps").state.valid_fix =
        false) :=
  unknown_fix_quality_as_minus_one defaultConfig qzero qzero initState
    ⟨"$GPGGA,7*00", true,
      some (.gga { ggaNanTime with utc_secs := .val 0, fix_type := 7 })⟩
    { ggaNanTime with utc_secs := .val 0, fix_type := 7 } "gps" rfl
    (by decide)

/-- Recognize a `NavSatFix` publish. -/
def isNavFixReport : Report → Bool
  | .navFix _ => true
  | _ => false

/-- Recognize a `TwistStamped` (velocity) publish. -/
def isVelocityReport : Report → Bool
  | .velocity _ => true
  | _ => false

/-- Everything the echo block publishes is a raw echo. -/
lemma mem_echoReports (text : String) (r : Report)
    (h : r ∈ echoReports text) : ∃ s, r = .rawEcho s := by
  simp only [echoReports, List.mem_filterMap] at h
  obtain ⟨a, _, ha⟩ := h
  cases a with
  | nil => simp [echoOne] at ha
  | cons c rest =>
    simp only [echoOne] at ha
    split at ha
    · exact ⟨String.mk (c :: rest), (Option.some_inj.mp ha).symm⟩
    · simp at ha

/-- The echo block never publishes a velocity report. -/
lemma echo_any_velocity_false (text : String) :
    (echoReports text).any isVelocityReport = false := by
  rw [List.any_eq_false]
  intro r hr
  obtain ⟨s, rfl⟩ := mem_echoReports text r hr
  simp [isVelocityReport]

/-- The echo block never publishes a navigation fix. -/
lemma echo_any_navfix_false (text : String) :
    (echoReports text).any isNavFixReport = false := by
  rw [List.any_eq_false]
  intro r hr
  obtain ⟨s, rfl⟩ := mem_echoReports text r hr
  simp [isNavFixReport]

/-- The optional time-reference publish is never a velocity report. -/
lemma utc_any_velocity_false (cfg : DriverConfig) (us un : NFloat)
    (frame_id : String) :
    (utcTimeRefs cfg us un frame_id).any isVelocityReport = false := by
  simp only [utcTimeRefs]
  split <;> simp [isVelocityReport]

/-- The optional time-reference publish is never a navigation fix. -/
lemma utc_any_navfix_false (cfg : DriverConfig) (us un : NFloat)
    (frame_id : String) :
    (utcTimeRefs cfg us un frame_id).any isNavFixReport = false := by
  simp only [utcTimeRefs]
  split <;> simp [isNavFixReport]

/-- Configuration with RMC-as-position-source enabled. -/
def cfgRMC : DriverConfig := { defaultConfig with use_RMC := true }

/-- An RMC record whose fix-valid flag is false. -/
def rmcInvalid : RmcData :=
  { utc_secs := .val 0, utc_nsecs := .val 0, fix_valid := false,
    latitude := .val 48, latitude_direction := "N",
    longitude := .val 11, longitude_direction := "E",
    speed := .val 5, true_course := .val 0 }

/-- C3 counterexample: with RMC-as-position-source enabled, an RMC
sentence with an invalid fix still causes a `NavSatFix` publish (with
no-fix status) — the publish inside the `use_RMC` block is unconditional —
while no velocity report is emitted. -/
theorem rmc_invalid_fix_cex :
    (add_sentence cfgRMC qzero qzero initState
        ⟨"", true, some (.rmc rmcInvalid)⟩ "gps").reports.any isNavFixReport =
      true ∧
    (add_sentence cfgRMC qzero qzero initState
        ⟨"", true, some (.rmc rmcInvalid)⟩ "gps").reports.any
        isVelocityReport = false := by
  refine ⟨by decide, by decide⟩

/-- C3 amended: an RMC sentence with an invalid fix never yields a
velocity report; with RMC-as-position-source enabled a `NavSatFix` with
`STATUS_NO_FIX` is still published, and with it disabled no `NavSatFix`
is published. -/
theorem rmc_invalid_fix_behavior (cfg : DriverConfig) (sinq cosq : ℚ → ℚ)
    (st : FusionState) (inp : RawSentence) (d : RmcData) (frame_id : String)
    (h2 : inp.checksum_ok = true) (h3 : inp.parsed = some (.rmc d))
    (hv : d.fix_valid = false)
    (hg : (cfg.use_GNSS_time && d.utc_secs.isnan) = false) :
    (add_sentence cfg sinq cosq st inp frame_id).reports.any
      isVelocityReport = false ∧
    (cfg.use_RMC = true →
      ∃ f, Report.navFix f ∈ (add_sentence cfg sinq cosq st inp
        frame_id).reports ∧ f.status = STATUS_NO_FIX) ∧
    (cfg.use_RMC = false →
      (add_sentence cfg sinq cosq st inp frame_id).reports.any
        isNavFixReport = false) := by
  refine ⟨?_, ?_, ?_⟩
  · cases hr : cfg.use_RMC with
    | true =>
      simp [add_sentence, dispatch, handleRMC, h2, h3, hv, hg, hr,
        List.any_append, echo_any_velocity_false, utc_any_velocity_false,
        isVelocityReport]
    | false =>
      simp [add_sentence, dispatch, handleRMC, h2, h3, hv, hg, hr,
        List.any_append, echo_any_velocity_false]
  · intro hr
    refine ⟨rmcFix cfg d frame_id, ?_, ?_⟩
    · simp [add_sentence, dispatch, handleRMC, h2, h3, hv, hg, hr]
    · simp [rmcFix, hv]
  · intro hr
    simp [add_sentence, dispatch, handleRMC, h2, h3, hv, hg, hr,
      List.any_append, echo_any_navfix_false]

/-- C3 witness: the amended statement at a concrete invalid-fix RMC input
with RMC mode enabled. -/
theorem rmc_invalid_fix_behavior_witness :
    (add_sentence cfgRMC qzero qzero initState
        ⟨"", true, some (.rmc rmcInvalid)⟩ "gps").reports.any
      isVelocityReport = false ∧
    (cfgRMC.use_RMC = true →
      ∃ f, Report.navFix f ∈ (add_sentence cfgRMC qzero qzero initState
        ⟨"", true, some (.rmc rmcInvalid)⟩ "gps").reports ∧
        f.status = STATUS_NO_FIX) ∧
    (cfgRMC.use_RMC = false →
      (add_sentence cfgRMC qzero qzero initState
          ⟨"", true, some (.rmc rmcInvalid)⟩ "gps").reports.any
        isNavFixReport = false) :=
  rmc_invalid_fix_behavior cfgRMC qzero qzero initState
    ⟨"", true, some (.rmc rmcInvalid)⟩ rmcInvalid "gps" rfl rfl rfl rfl

/-- A GGA record with a valid time and SPS fix quality. -/
def ggaValid : GgaData := { ggaNanTime with utc_secs := .val 0 }

/-- C2: for a GGA sentence handled with RMC mode disabled, any std-dev
whose fallback condition holds (`using_receiver_epe` false, or the field
NaN) is set to the quality table's default error — twice it for altitude —
and the published `NavSatFix` has covariance diagonal
`(hdop*lon_std_dev)^2, (hdop*lat_std_dev)^2, (2*hdop*alt_std_dev)^2` at
indices 0, 4, 8 and zeros everywhere off the diagonal. -/
theorem gga_covariance_diag (cfg : DriverConfig) (sinq cosq : ℚ → ℚ)
    (st : FusionState) (inp : RawSentence) (d : GgaData) (frame_id : String)
    (h1 : cfg.use_RMC = false) (h2 : inp.checksum_ok = true)
    (h3 : inp.parsed = some (.gga d))
    (h4 : (cfg.use_GNSS_time && d.utc_secs.isnan) = false) :
    (st.using_receiver_epe = false ∨ st.lon_std_dev.isnan = true →
      (add_sentence cfg sinq cosq st inp frame_id).state.lon_std_dev =
        .val (ggaQual cfg d).1) ∧
    (st.using_receiver_epe = false ∨ st.lat_std_dev.isnan = true →
      (add_sentence cfg sinq cosq st inp frame_id).state.lat_std_dev =
        .val (ggaQual cfg d).1) ∧
    (st.using_receiver_epe = false ∨ st.alt_std_dev.isnan = true →
      (add_sentence cfg sinq cosq st inp frame_id).state.alt_std_dev =
        .val ((ggaQual cfg d).1 * 2)) ∧
    Report.navFix (ggaFix cfg st d frame_id) ∈
      (add_sentence cfg sinq cosq st inp frame_id).reports ∧
    (ggaFix cfg st d frame_id).position_covariance.c0 =
      (d.hdop.mul
        (add_sentence cfg sinq cosq st inp frame_id).state.lon_std_dev).sq ∧
    (ggaFix cfg st d frame_id).position_covariance.c4 =
      (d.hdop.mul
        (add_sentence cfg sinq cosq st inp frame_id).state.lat_std_dev).sq ∧
    (ggaFix cfg st d frame_id).position_covariance.c8 =
      (((NFloat.val 2).mul d.hdop).mul
        (add_sentence cfg sinq cosq st inp frame_id).state.alt_std_dev).sq ∧
    (ggaFix cfg st d frame_id).position_covariance.c1 = .val 0 ∧
    (ggaFix cfg st d frame_id).position_covariance.c2 = .val 0 ∧
    (ggaFix cfg st d frame_id).position_covariance.c3 = .val 0 ∧
    (ggaFix cfg st d frame_id).position_covariance.c5 = .val 0 ∧
    (ggaFix cfg st d frame_id).position_covariance.c6 = .val 0 ∧
    (ggaFix cfg st d frame_id).position_covariance.c7 = .val 0 := by
  have hstate : (add_sentence cfg sinq cosq st inp frame_id).state =
      ggaState cfg st d := by
    simp [add_sentence, dispatch, handleGGA, h1, h2, h3, h4]
  refine ⟨?_, ?_, ?_, ?_, ?_, ?_, ?_, ?_, ?_, ?_, ?_, ?_, ?_⟩
  · intro hc
    have hb : (!st.using_receiver_epe || st.lon_std_dev.isnan) = true := by
      rcases hc with h | h <;> simp [h]
    rw [hstate]
    simp [ggaState, ggaLonStd, hb]
  · intro hc
    have hb : (!st.using_receiver_epe || st.lat_std_dev.isnan) = true := by
      rcases hc with h | h <;> simp [h]
    rw [hstate]
    simp [ggaState, ggaLatStd, hb]
  · intro hc
    have hb : (!st.using_receiver_epe || st.alt_std_dev.isnan) = true := by
      rcases hc with h | h <;> simp [h]
    rw [hstate]
    simp [ggaState, ggaAltStd, hb]
  · simp [add_sentence, dispatch, handleGGA, h1, h2, h3, h4]
  · rw [hstate]; simp [ggaFix, ggaState]
  · rw [hstate]; simp [ggaFix, ggaState]
  · rw [hstate]; simp [ggaFix, ggaState]
  · simp [ggaFix, Cov.zero]
  · simp [ggaFix, Cov.zero]
  · simp [ggaFix, Cov.zero]
  · simp [ggaFix, Cov.zero]
  · simp [ggaFix, Cov.zero]
  · simp [ggaFix, Cov.zero]

/-- C2 witness: the covariance statement at a concrete GGA input from the
initial state. -/
theorem gga_covariance_diag_witness :
    (initState.using_receiver_epe = false ∨
        initState.lon_std_dev.isnan = true →
      (add_sentence defaultConfig qzero qzero initState
          ⟨"", true, some (.gga ggaValid)⟩ "gps").state.lon_std_dev =
        .val (ggaQual defaultConfig ggaValid).1) ∧
    (initState.using_receiver_epe = false ∨
        initState.lat_std_dev.isnan = true →
      (add_sentence defaultConfig qzero qzero initState
          ⟨"", true, some (.gga ggaValid)⟩ "gps").state.lat_std_dev =
        .val (ggaQual defaultConfig ggaValid).1) ∧
    (initState.using_receiver_epe = false ∨
        initState.alt_std_dev.isnan = true →
      (add_sentence defaultConfig qzero qzero initState
          ⟨"", true, some (.gga ggaValid)⟩ "gps").state.alt_std_dev =
        .val ((ggaQual defaultConfig ggaValid).1 * 2)) ∧
    Report.navFix (ggaFix defaultConfig initState ggaValid "gps") ∈
      (add_sentence defaultConfig qzero qzero initState
        ⟨"", true, some (.gga ggaValid)⟩ "gps").reports ∧
    (ggaFix defaultConfig initState ggaValid "gps").position_covariance.c0 =
      (ggaValid.hdop.mul
        (add_sentence defaultConfig qzero qzero initState
          ⟨"", true, some (.gga ggaValid)⟩ "gps").state.lon_std_dev).sq ∧
    (ggaFix defaultConfig initState ggaValid "gps").position_covariance.c4 =
      (ggaValid.hdop.mul
        (add_sentence defaultConfig qzero qzero initState
          ⟨"", true, some (.gga ggaValid)⟩ "gps").state.lat_std_dev).sq ∧
    (ggaFix defaultConfig initState ggaValid "gps").position_covariance.c8 =
      (((NFloat.val 2).mul ggaValid.hdop).mul
        (add_sentence defaultConfig qzero qzero initState
          ⟨"", true, some (.gga ggaValid)⟩ "gps").state.alt_std_dev).sq ∧
    (ggaFix defaultConfig initState ggaValid "gps").position_covariance.c1 =
      .val 0 ∧
    (ggaFix defaultConfig initState ggaValid "gps").position_covariance.c2 =
      .val 0 ∧
    (ggaFix defaultConfig initState ggaValid "gps").position_covariance.c3 =
      .val 0 ∧
    (ggaFix defaultConfig initState ggaValid "gps").position_covariance.c5 =
      .val 0 ∧
    (ggaFix defaultConfig initState ggaValid "gps").position_covariance.c6 =
      .val 0 ∧
    (ggaFix defaultConfig initState ggaValid "gps").position_covariance.c7 =
      .val 0 :=
  gga_covariance_diag defaultConfig qzero qzero initState
    ⟨"", true, some (.gga ggaValid)⟩ ggaValid "gps" rfl rfl rfl rfl

/-- C8: in the emitted `NavSatFix` of either position branch (GGA with RMC
mode off; RMC with RMC mode on), direction letter `S`/`W` yields the exact
negation of the sentence's unsigned magnitude — strictly negative when the
magnitude is positive — while `N`/`E` leaves it unchanged. -/
theorem hemisphere_sign_law :
    (∀ (cfg : DriverConfig) (sinq cosq : ℚ → ℚ) (st : FusionState)
        (inp : RawSentence) (d : GgaData) (frame_id : String),
      cfg.use_RMC = false → inp.checksum_ok = true →
      inp.parsed = some (.gga d) →
      (cfg.use_GNSS_time && d.utc_secs.isnan) = false →
      Report.navFix (ggaFix cfg st d frame_id) ∈
        (add_sentence cfg sinq cosq st inp frame_id).reports ∧
      (d.latitude_direction = "S" →
        (ggaFix cfg st d frame_id).latitude = d.latitude.neg) ∧
      (d.latitude_direction = "N" →
        (ggaFix cfg st d frame_id).latitude = d.latitude) ∧
      (d.longitude_direction = "W" →
        (ggaFix cfg st d frame_id).longitude = d.longitude.neg) ∧
      (d.longitude_direction = "E" →
        (ggaFix cfg st d frame_id).longitude = d.longitude) ∧
      (∀ q : ℚ, d.latitude_direction = "S" → d.latitude = .val q → 0 < q →
        (ggaFix cfg st d frame_id).latitude.isNeg = true) ∧
      (∀ q : ℚ, d.longitude_direction = "W" → d.longitude = .val q →
        0 < q → (ggaFix cfg st d frame_id).longitude.isNeg = true)) ∧
    (∀ (cfg : DriverConfig) (sinq cosq : ℚ → ℚ) (st : FusionState)
        (inp : RawSentence) (d : RmcData) (frame_id : String),
      cfg.use_RMC = true → inp.checksum_ok = true →
      inp.parsed = some (.rmc d) →
      (cfg.use_GNSS_time && d.utc_secs.isnan) = false →
      Report.navFix (rmcFix cfg d frame_id) ∈
        (add_sentence cfg sinq cosq st inp frame_id).reports ∧
      (d.latitude_direction = "S" →
        (rmcFix cfg d frame_id).latitude = d.latitude.neg) ∧
      (d.latitude_direction = "N" →
        (rmcFix cfg d frame_id).latitude = d.latitude) ∧
      (d.longitude_direction = "W" →
        (rmcFix cfg d frame_id).longitude = d.longitude.neg) ∧
      (d.longitude_direction = "E" →
        (rmcFix cfg d frame_id).longitude = d.longitude) ∧
      (∀ q : ℚ, d.latitude_direction = "S" → d.latitude = .val q → 0 < q →
        (rmcFix cfg d frame_id).latitude.isNeg = true) ∧
      (∀ q : ℚ, d.longitude_direction = "W" → d.longitude = .val q →
        0 < q → (rmcFix cfg d frame_id).longitude.isNeg = true)) := by
  constructor
  · intro cfg sinq cosq st inp d frame_id h1 h2 h3 h4
    refine ⟨?_, ?_, ?_, ?_, ?_, ?_, ?_⟩
    · simp [add_sentence, dispatch, handleGGA, h1, h2, h3, h4]
    · intro h; simp [ggaFix, signAdjust, h]
    · intro h; simp [ggaFix, signAdjust, h]
    · intro h; simp [ggaFix, signAdjust, h]
    · intro h; simp [ggaFix, signAdjust, h]
    · intro q h hq hqpos
      simp only [ggaFix, signAdjust, h, if_pos, hq, NFloat.neg, NFloat.isNeg,
        decide_eq_true_eq]
      linarith
    · intro q h hq hqpos
      simp only [ggaFix, signAdjust, h, if_pos, hq, NFloat.neg, NFloat.isNeg,
        decide_eq_true_eq]
      linarith
  · intro cfg sinq cosq st inp d frame_id h1 h2 h3 h4
    refine ⟨?_, ?_, ?_, ?_, ?_, ?_, ?_⟩
    · simp [add_sentence, dispatch, handleRMC, h1, h2, h3, h4]
    · intro h; simp [rmcFix, signAdjust, h]
    · intro h; simp [rmcFix, signAdjust, h]
    · intro h; simp [rmcFix, signAdjust, h]
    · intro h; simp [rmcFix, signAdjust, h]
    · intro q h hq hqpos
      simp only [rmcFix, signAdjust, h, if_pos, hq, NFloat.neg, NFloat.isNeg,
        decide_eq_true_eq]
      linarith
    · intro q h hq hqpos
      simp only [rmcFix, signAdjust, h, if_pos, hq, NFloat.neg, NFloat.isNeg,
        decide_eq_true_eq]
      linarith

/-- A GGA record in the southwestern hemisphere. -/
def ggaSouthWest : GgaData :=
  { ggaValid with latitude_direction := "S", longitude_direction := "W" }

/-- An RMC record with a valid fix in the southern hemisphere. -/
def rmcSouth : RmcData :=
  { rmcInvalid with fix_valid := true, latitude_direction := "S" }

/-- C8 witness: the hemisphere law at concrete GGA and RMC inputs. -/
theorem hemisphere_sign_law_witness :
    (Report.navFix (ggaFix defaultConfig initState ggaSouthWest "gps") ∈
        (add_sentence defaultConfig qzero qzero initState
          ⟨"", true, some (.gga ggaSouthWest)⟩ "gps").reports ∧
      (ggaSouthWest.latitude_direction = "S" →
        (ggaFix defaultConfig initState ggaSouthWest "gps").latitude =
          ggaSouthWest.latitude.neg) ∧
      (ggaSouthWest.latitude_direction = "N" →
        (ggaFix defaultConfig initState ggaSouthWest "gps").latitude =
          ggaSouthWest.latitude) ∧
      (ggaSouthWest.longitude_direction = "W" →
        (ggaFix defaultConfig initState ggaSouthWest "gps").longitude =
          ggaSouthWest.longitude.neg) ∧
      (ggaSouthWest.longitude_direction = "E" →
        (ggaFix defaultConfig initState ggaSouthWest "gps").longitude =
          ggaSouthWest.longitude) ∧
      (∀ q : ℚ, ggaSouthWest.latitude_direction = "S" →
        ggaSouthWest.latitude = .val q → 0 < q →
        (ggaFix defaultConfig initState ggaSouthWest
          "gps").latitude.isNeg = true) ∧
      (∀ q : ℚ, ggaSouthWest.longitude_direction = "W" →
        ggaSouthWest.longitude = .val q → 0 < q →
        (ggaFix defaultConfig initState ggaSouthWest
          "gps").longitude.isNeg = true)) ∧
    (Report.navFix (rmcFix cfgRMC rmcSouth "gps") ∈
        (add_sentence cfgRMC qzero qzero initState
          ⟨"", true, some (.rmc rmcSouth)⟩ "gps").reports ∧
      (rmcSouth.latitude_direction = "S" →
        (rmcFix cfgRMC rmcSouth "gps").latitude = rmcSouth.latitude.neg) ∧
      (rmcSouth.latitude_direction = "N" →
        (rmcFix cfgRMC rmcSouth "gps").latitude = rmcSouth.latitude) ∧
      (rmcSouth.longitude_direction = "W" →
        (rmcFix cfgRMC rmcSouth "gps").longitude = rmcSouth.longitude.neg) ∧
      (rmcSouth.longitude_direction = "E" →
        (rmcFix cfgRMC rmcSouth "gps").longitude = rmcSouth.longitude) ∧
      (∀ q : ℚ, rmcSouth.latitude_direction = "S" →
        rmcSouth.latitude = .val q → 0 < q →
        (rmcFix cfgRMC rmcSouth "gps").latitude.isNeg = true) ∧
      (∀ q : ℚ, rmcSouth.longitude_direction = "W" →
        rmcSouth.longitude = .val q → 0 < q →
        (rmcFix cfgRMC rmcSouth "gps").longitude.isNeg = true)) :=
  ⟨hemisphere_sign_law.1 defaultConfig qzero qzero initState
      ⟨"", true, some (.gga ggaSouthWest)⟩ ggaSouthWest "gps" rfl rfl rfl rfl,
    hemisphere_sign_law.2 cfgRMC qzero qzero initState
      ⟨"", true, some (.rmc rmcSouth)⟩ rmcSouth "gps" rfl rfl rfl rfl⟩

/-- The echo block never republishes a velocity report. -/
lemma velocity_not_mem_echo (text : String) (v : VelocityMsg) :
    Report.velocity v ∉ echoReports text := fun h => by
  obtain ⟨s, hs⟩ := mem_echoReports text _ h
  cases hs

/-- The optional time-reference publish is never a velocity report. -/
lemma velocity_not_mem_utc (cfg : DriverConfig) (us un : NFloat)
    (frame_id : String) (v : VelocityMsg) :
    Report.velocity v ∉ utcTimeRefs cfg us un frame_id := by
  simp only [utcTimeRefs]
  split <;> simp

/-- Auxiliary translators never publish a velocity report. -/
lemma velocity_not_mem_aux (k : AuxData) (v : VelocityMsg) :
    Report.velocity v ∉ handleAux k := by
  cases k <;> simp only [handleAux] <;> first | (split <;> simp) | simp

/-- C9: an RMC sentence with a valid fix always yields a velocity report
`(speed*sin(true_course), speed*cos(true_course))`, whatever `use_RMC` is;
and a velocity report can only come from an RMC sentence with a valid
fix. -/
theorem rmc_velocity_rule :
    (∀ (cfg : DriverConfig) (sinq cosq : ℚ → ℚ) (st : FusionState)
        (inp : RawSentence) (d : RmcData) (frame_id : String),
      inp.checksum_ok = true → inp.parsed = some (.rmc d) →
      d.fix_valid = true → (cfg.use_GNSS_time && d.utc_secs.isnan) = false →
      Report.velocity (rmcVel sinq cosq d frame_id) ∈
        (add_sentence cfg sinq cosq st inp frame_id).reports ∧
      (rmcVel sinq cosq d frame_id).vx =
        d.speed.mul (d.true_course.app sinq) ∧
      (rmcVel sinq cosq d frame_id).vy =
        d.speed.mul (d.true_course.app cosq)) ∧
    (∀ (cfg : DriverConfig) (sinq cosq : ℚ → ℚ) (st : FusionState)
        (inp : RawSentence) (frame_id : String) (v : VelocityMsg),
      Report.velocity v ∈
        (add_sentence cfg sinq cosq st inp frame_id).reports →
      ∃ d, inp.parsed = some (.rmc d) ∧ d.fix_valid = true) := by
  constructor
  · intro cfg sinq cosq st inp d frame_id h2 h3 hv hg
    refine ⟨?_, rfl, rfl⟩
    simp [add_sentence, dispatch, handleRMC, h2, h3, hv, hg]
  · intro cfg sinq cosq st inp frame_id v hv
    rcases inp with ⟨text, ck, parsed⟩
    cases ck with
    | false => simp [add_sentence, velocity_not_mem_echo] at hv
    | true =>
      cases parsed with
      | none => simp [add_sentence, velocity_not_mem_echo] at hv
      | some p =>
        cases p with
        | gga d =>
          cases hr : cfg.use_RMC with
          | true =>
            simp [add_sentence, dispatch, hr, velocity_not_mem_echo] at hv
          | false =>
            cases hb : (cfg.use_GNSS_time && d.utc_secs.isnan) with
            | true =>
              simp [add_sentence, dispatch, handleGGA, hr, hb,
                velocity_not_mem_echo] at hv
            | false =>
              simp [add_sentence, dispatch, handleGGA, hr, hb,
                velocity_not_mem_echo, velocity_not_mem_utc] at hv
        | rmc d =>
          cases hf : d.fix_valid with
          | true => exact ⟨d, rfl, hf⟩
          | false =>
            cases hb : (cfg.use_GNSS_time && d.utc_secs.isnan) with
            | true =>
              simp [add_sentence, dispatch, handleRMC, hb,
                velocity_not_mem_echo] at hv
            | false =>
              cases hr : cfg.use_RMC with
              | true =>
                simp [add_sentence, dispatch, handleRMC, hb, hf, hr,
                  velocity_not_mem_echo, velocity_not_mem_utc] at hv
              | false =>
                simp [add_sentence, dispatch, handleRMC, hb, hf, hr,
                  velocity_not_mem_echo] at hv
        | gst d =>
          simp [add_sentence, dispatch, velocity_not_mem_echo] at hv
        | auxSentence k =>
          simp [add_sentence, dispatch, velocity_not_mem_echo,
            velocity_not_mem_aux] at hv
        | other =>
          simp [add_sentence, dispatch, velocity_not_mem_echo] at hv

/-- C9 witness: the velocity rule at a concrete valid-fix RMC input. -/
theorem rmc_velocity_rule_witness :
    Report.velocity (rmcVel qzero qzero rmcSouth "gps") ∈
      (add_sentence defaultConfig qzero qzero initState
        ⟨"", true, some (.rmc rmcSouth)⟩ "gps").reports ∧
    (rmcVel qzero qzero rmcSouth "gps").vx =
      rmcSouth.speed.mul (rmcSouth.true_course.app qzero) ∧
    (rmcVel qzero qzero rmcSouth "gps").vy =
      rmcSouth.speed.mul (rmcSouth.true_course.app qzero) :=
  rmc_velocity_rule.1 defaultConfig qzero qzero initState
    ⟨"", true, some (.rmc rmcSouth)⟩ rmcSouth "gps" rfl rfl rfl rfl

/-- None of the three std-dev fields is negative (NaN is not negative:
float comparisons with NaN are false). -/
def stdDevsNonNeg (st : FusionState) : Prop :=
  st.lon_std_dev.isNeg = false ∧ st.lat_std_dev.isNeg = false ∧
    st.alt_std_dev.isNeg = false

/-- All six configured default estimated-position-errors are non-negative
(true of the shipped rosparam defaults). -/
def cfgNonNeg (cfg : DriverConfig) : Prop :=
  0 ≤ cfg.default_epe_quality0 ∧ 0 ≤ cfg.default_epe_quality1 ∧
    0 ≤ cfg.default_epe_quality2 ∧ 0 ≤ cfg.default_epe_quality4 ∧
    0 ≤ cfg.default_epe_quality5 ∧ 0 ≤ cfg.default_epe_quality9

/-- The input carries no negative receiver error estimate: if it parses as
GST, all three reported std-devs are non-negative or NaN. -/
def gstNonNegB (inp : RawSentence) : Bool :=
  match inp.parsed with
  | some (.gst d) =>
    !d.lon_std_dev.isNeg && !d.lat_std_dev.isNeg && !d.alt_std_dev.isNeg
  | _ => true

/-- Every `some` entry of the quality table has a non-negative default
error when the configuration does. -/
lemma gps_qualities_fst_nonneg (cfg : DriverConfig) (ft : Int)
    (x : ℚ × Int × Int) (hcfg : cfgNonNeg cfg)
    (h : gps_qualities cfg ft = some x) : 0 ≤ x.1 := by
  obtain ⟨h0, h1, h2, h4, h5, h9⟩ := hcfg
  unfold gps_qualities at h
  split_ifs at h <;> (simp only [Option.some.injEq] at h; subst h; simpa)

/-- The default error selected by the GGA branch is non-negative when the
configuration is. -/
lemma ggaQual_fst_nonneg (cfg : DriverConfig) (d : GgaData)
    (hcfg : cfgNonNeg cfg) : 0 ≤ (ggaQual cfg d).1 := by
  unfold ggaQual
  cases hq : gps_qualities cfg (ggaFixType cfg d) with
  | none => simpa using hcfg.1
  | some x => simpa using gps_qualities_fst_nonneg cfg _ x hcfg hq

/-- One `add_sentence` call preserves std-dev non-negativity, given a
non-negative configuration and a non-negative GST input. -/
lemma stdDevs_nonneg_step (cfg : DriverConfig) (sinq cosq : ℚ → ℚ)
    (st : FusionState) (inp : RawSentence) (frame_id : String)
    (hcfg : cfgNonNeg cfg) (hinp : gstNonNegB inp = true)
    (hst : stdDevsNonNeg st) :
    stdDevsNonNeg (add_sentence cfg sinq cosq st inp frame_id).state := by
  rcases inp with ⟨text, ck, parsed⟩
  cases ck with
  | false => simpa [add_sentence] using hst
  | true =>
    cases parsed with
    | none => simpa [add_sentence] using hst
    | some p =>
      cases p with
      | gga d =>
        cases hr : cfg.use_RMC with
        | true => simpa [add_sentence, dispatch, hr] using hst
        | false =>
          cases hb : (cfg.use_GNSS_time && d.utc_secs.isnan) with
          | true =>
            simpa [add_sentence, dispatch, handleGGA, hr, hb] using hst
          | false =>
            have hdef : (NFloat.val (ggaQual cfg d).1).isNeg = false := by
              simp only [NFloat.isNeg, decide_eq_false_iff_not, not_lt]
              exact ggaQual_fst_nonneg cfg d hcfg
            have hdef2 :
                (NFloat.val ((ggaQual cfg d).1 * 2)).isNeg = false := by
              simp only [NFloat.isNeg, decide_eq_false_iff_not, not_lt]
              have := ggaQual_fst_nonneg cfg d hcfg
              linarith
            have hgoal : stdDevsNonNeg (ggaState cfg st d) := by
              refine ⟨?_, ?_, ?_⟩
              · simp only [ggaState, ggaLonStd]
                split
                · exact hdef
                · exact hst.1
              · simp only [ggaState, ggaLatStd]
                split
                · exact hdef
                · exact hst.2.1
              · simp only [ggaState, ggaAltStd]
                split
                · exact hdef2
                · exact hst.2.2
            simpa [add_sentence, dispatch, handleGGA, hr, hb] using hgoal
      | rmc d =>
        cases hb : (cfg.use_GNSS_time && d.utc_secs.isnan) with
        | true => simpa [add_sentence, dispatch, handleRMC, hb] using hst
        | false => simpa [add_sentence, dispatch, handleRMC, hb] using hst
      | gst d =>
        have h3 : d.lon_std_dev.isNeg = false ∧ d.lat_std_dev.isNeg = false ∧
            d.alt_std_dev.isNeg = false := by
          simpa [gstNonNegB, and_assoc] using hinp
        simpa [add_sentence, dispatch, handleGST, stdDevsNonNeg] using h3
      | auxSentence k => simpa [add_sentence, dispatch] using hst
      | other => simpa [add_sentence, dispatch] using hst

/-- C1 counterexample: (a) a single GST sentence reporting `-1` for every
std-dev drives `lat_std_dev` negative; (b) after a GST sentence reporting
`(NaN, 2, 3)`, a GGA sentence overwrites `lon_std_dev` with the table
default `4` (a non-GST write) while leaving `lat_std_dev` at `2` — a
partial write of the triple. -/
theorem stddev_invariant_cex :
    (add_sentence defaultConfig qzero qzero initState
        ⟨"", true, some (.gst ⟨.val (-1), .val (-1), .val (-1)⟩)⟩
        "gps").state.lat_std_dev.isNeg = true ∧
    (add_sentence defaultConfig qzero qzero initState
        ⟨"", true, some (.gst ⟨.nan, .val 2, .val 3⟩)⟩
        "gps").state.lon_std_dev = .nan ∧
    (add_sentence defaultConfig qzero qzero
        (add_sentence defaultConfig qzero qzero initState
          ⟨"", true, some (.gst ⟨.nan, .val 2, .val 3⟩)⟩ "gps").state
        ⟨"", true, some (.gga ggaValid)⟩ "gps").state.lon_std_dev =
      .val 4 ∧
    (add_sentence defaultConfig qzero qzero
        (add_sentence defaultConfig qzero qzero initState
          ⟨"", true, some (.gst ⟨.nan, .val 2, .val 3⟩)⟩ "gps").state
        ⟨"", true, some (.gga ggaValid)⟩ "gps").state.lat_std_dev =
      .val 2 := by
  refine ⟨by decide, by decide, by decide, by decide⟩

/-- C1 amended: provided the configured default errors are non-negative
and every GST sentence in the stream reports non-negative (or NaN)
std-devs, the three std-dev fields are never negative over any call
sequence from the initial state; and a GST sentence overwrites all three
std-dev fields together (setting `using_receiver_epe`), while the GGA
branch may additionally reset individual fields to table defaults when
`using_receiver_epe` is unset or the field is NaN. -/
theorem stddev_nonneg_and_gst_writes_all :
    (∀ (cfg : DriverConfig) (sinq cosq : ℚ → ℚ) (frame_id : String)
        (inps : List RawSentence),
      cfgNonNeg cfg → (∀ i ∈ inps, gstNonNegB i = true) →
      stdDevsNonNeg (runDriver cfg sinq cosq initState frame_id inps)) ∧
    (∀ (st : FusionState) (d : GstData),
      (handleGST st d).lon_std_dev = d.lon_std_dev ∧
      (handleGST st d).lat_std_dev = d.lat_std_dev ∧
      (handleGST st d).alt_std_dev = d.alt_std_dev ∧
      (handleGST st d).using_receiver_epe = true) := by
  constructor
  · intro cfg sinq cosq frame_id inps hcfg hall
    have main : ∀ (is : List RawSentence) (st : FusionState),
        stdDevsNonNeg st → (∀ i ∈ is, gstNonNegB i = true) →
        stdDevsNonNeg (runDriver cfg sinq cosq st frame_id is) := by
      intro is
      induction is with
      | nil => intro st h _; simpa [runDriver] using h
      | cons i rest ih =>
        intro st hst hall'
        simp only [runDriver]
        exact ih _
          (stdDevs_nonneg_step cfg sinq cosq st i frame_id hcfg
            (hall' i (List.mem_cons_self i rest)) hst)
          fun j hj => hall' j (List.mem_cons_of_mem i hj)
    exact main inps initState ⟨rfl, rfl, rfl⟩ hall
  · intro st d
    exact ⟨rfl, rfl, rfl, rfl⟩

/-- C1 witness: the amended statement on a concrete two-sentence stream
(a GST update followed by a GGA fix) and a concrete GST transition. -/
theorem stddev_nonneg_witness :
    stdDevsNonNeg (runDriver defaultConfig qzero qzero initState "gps"
      [⟨"", true, some (.gst ⟨.val 1, .nan, .val 3⟩)⟩,
        ⟨"", true, some (.gga ggaValid)⟩]) ∧
    ((handleGST initState ⟨.val 1, .nan, .val 3⟩).lon_std_dev = .val 1 ∧
      (handleGST initState ⟨.val 1, .nan, .val 3⟩).lat_std_dev = .nan ∧
      (handleGST initState ⟨.val 1, .nan, .val 3⟩).alt_std_dev = .val 3 ∧
      (handleGST initState ⟨.val 1, .nan, .val 3⟩).using_receiver_epe =
        true) :=
  ⟨stddev_nonneg_and_gst_writes_all.1 defaultConfig qzero qzero "gps"
      [⟨"", true, some (.gst ⟨.val 1, .nan, .val 3⟩)⟩,
        ⟨"", true, some (.gga ggaValid)⟩]
      ⟨by decide, by decide, div_nonneg (by decide) (by decide),
        div_nonneg (by decide) (by decide), by decide, by decide⟩
      (by decide),
    stddev_nonneg_and_gst_writes_all.2 initState ⟨.val 1, .nan, .val 3⟩⟩
